import Mathlib

/-!
Verification development for the Wi-Fi scan application
(src/proj_cm33_ns/scan_task.c).

The file embeds the application's scan-orchestration logic in Lean:
the filter-mode enumeration and its button-driven advance, the
scan-issuing loop (consumption of the pending button flag, filter
descriptor construction, scan issuance, completion wait, inter-pass
delay), the scan callback that counts and forwards discovered
networks, and the display-string lookups used on the reporting path.
-/

/-- Modelled from the spec: the header scan_task.h (not under src/)
declares enum scan_filter_mode. The spec fixes the member order
None, BySSID, ByRSSIThreshold, ByMACAddress, ByFrequencyBand and a
trailing sentinel Invalid; the repository's design documentation
confirms that incrementing to SCAN_FILTER_INVALID wraps the value to
SCAN_FILTER_NONE. -/
inductive scan_filter_mode where
  | SCAN_FILTER_NONE
  | SCAN_FILTER_SSID
  | SCAN_FILTER_RSSI
  | SCAN_FILTER_MAC
  | SCAN_FILTER_BAND
  | SCAN_FILTER_INVALID
  deriving DecidableEq

open scan_filter_mode

/-- Ordinal of an enum member (C enumerators number from 0 in
declaration order). -/
def scan_filter_mode.toNat : scan_filter_mode → Nat
  | SCAN_FILTER_NONE => 0
  | SCAN_FILTER_SSID => 1
  | SCAN_FILTER_RSSI => 2
  | SCAN_FILTER_MAC => 3
  | SCAN_FILTER_BAND => 4
  | SCAN_FILTER_INVALID => 5

/-- Enum member of a numeric value; values past the declared range
collapse to the sentinel (they are never produced by the code, whose
increment is immediately range-checked). -/
def scan_filter_mode.ofOrd : Nat → scan_filter_mode
  | 0 => SCAN_FILTER_NONE
  | 1 => SCAN_FILTER_SSID
  | 2 => SCAN_FILTER_RSSI
  | 3 => SCAN_FILTER_MAC
  | 4 => SCAN_FILTER_BAND
  | _ => SCAN_FILTER_INVALID

/-- Embedding of the filter-advance step of scan_task
(scan_task.c lines 503-506): pre-increment scan_filter_mode_select;
if the incremented value reaches SCAN_FILTER_INVALID, reset it to
SCAN_FILTER_NONE. -/
def advance_scan_filter_mode (m : scan_filter_mode) : scan_filter_mode :=
  let n := m.toNat + 1
  if SCAN_FILTER_INVALID.toNat ≤ n then SCAN_FILTER_NONE
  else scan_filter_mode.ofOrd n

/-- A live mode (anything but the sentinel). -/
def scan_filter_mode.isLive (m : scan_filter_mode) : Prop :=
  m ≠ SCAN_FILTER_INVALID

instance (m : scan_filter_mode) : Decidable m.isLive := by
  unfold scan_filter_mode.isLive; infer_instance

/-- Events visible to the scan loop: a button press delivered by
button_interrupt_handler (scan_task.c lines 231-252), which sets the
button_pressed flag; or one iteration of the scan_task while-loop
(lines 495-588), which reads and clears the flag before issuing a
scan. -/
inductive LoopEvent where
  | press
  | iter
  deriving DecidableEq

/-- The loop-visible mutable state: the global filter selection
scan_filter_mode_select (line 80) and the pending-button flag
button_pressed (line 91). -/
structure LoopState where
  scan_filter_mode_select : scan_filter_mode
  button_pressed : Bool
  deriving DecidableEq

/-- Initial state: scan_filter_mode_select = SCAN_FILTER_NONE and
button_pressed = false (scan_task.c lines 80 and 91). -/
def initLoopState : LoopState := ⟨SCAN_FILTER_NONE, false⟩

/-- Embedding of the loop over a trace of events: a press sets the
flag; an iteration consumes the flag at its top, advancing the mode
when the flag was set and clearing it (scan_task.c lines 498-509),
then issues a scan under the resulting mode (lines 511-574). The
result is the final state together with the modes under which scans
were issued, in order. -/
def loop_run (s : LoopState) : List LoopEvent → LoopState × List scan_filter_mode
  | [] => (s, [])
  | LoopEvent.press :: es => loop_run { s with button_pressed := true } es
  | LoopEvent.iter :: es =>
      let s1 : LoopState :=
        if s.button_pressed then
          ⟨advance_scan_filter_mode s.scan_filter_mode_select, false⟩
        else s
      let r := loop_run s1 es
      (r.1, s1.scan_filter_mode_select :: r.2)

/-- Specification-side count: for each loop iteration of the trace,
the cumulative number of read-and-clear consumptions that found the
pending-button flag set, up to and including that iteration's own
consumption (which happens before that iteration's scan is issued). -/
def consumption_counts (flag : Bool) (k : Nat) : List LoopEvent → List Nat
  | [] => []
  | LoopEvent.press :: es => consumption_counts true k es
  | LoopEvent.iter :: es =>
      let k1 := if flag then k + 1 else k
      k1 :: consumption_counts false k1 es

/-- Mode reached after a given number of consumed button events when
starting from SCAN_FILTER_NONE: the count taken modulo 5 over the
enumeration order. -/
def modeOfCount (k : Nat) : scan_filter_mode :=
  scan_filter_mode.ofOrd (k % 5)

/-- Frequency-band values (cy_wcm_wifi_band_t) indexing the
band_string table (scan_task.c lines 82-88). -/
inductive cy_wcm_wifi_band_t where
  | CY_WCM_WIFI_BAND_ANY
  | CY_WCM_WIFI_BAND_2_4GHZ
  | CY_WCM_WIFI_BAND_5GHZ
  | CY_WCM_WIFI_BAND_6GHZ
  deriving DecidableEq

/-- Embedding of the band_string lookup table (scan_task.c lines
82-88): a designated-initializer array with one entry for every band
value, read as a total function on the band enumeration. -/
def band_string : cy_wcm_wifi_band_t → String
  | cy_wcm_wifi_band_t.CY_WCM_WIFI_BAND_ANY => "2.4 GHz, 5 GHz and 6 GHz"
  | cy_wcm_wifi_band_t.CY_WCM_WIFI_BAND_2_4GHZ => "2.4 GHz"
  | cy_wcm_wifi_band_t.CY_WCM_WIFI_BAND_5GHZ => "5 GHz"
  | cy_wcm_wifi_band_t.CY_WCM_WIFI_BAND_6GHZ => "6 GHz"

/-- Modelled from the spec: the configuration constants declared in
scan_task.h (not under src/): the SSID value, MAC-address value,
band value and RSSI threshold used to populate the scan filter.
They are configuration, read-only to the core, and never mutated. -/
structure ScanParams where
  SCAN_FOR_SSID_VALUE : String
  SCAN_FOR_MAC_ADDRESS : List Nat
  SCAN_FOR_BAND_VALUE : cy_wcm_wifi_band_t
  SCAN_FOR_RSSI_VALUE : Int
  deriving DecidableEq

/-- The observable content of a cy_wcm_scan_filter_t value: the mode
tag together with the union member selected by that tag. -/
inductive cy_wcm_scan_filter_t where
  | ssid_of (ssid : String)
  | rssi_of (rssi : Int)
  | mac_of (mac : List Nat)
  | band_of (band : cy_wcm_wifi_band_t)
  deriving DecidableEq

/-- Embedding of the filter-selection switch plus the issuance call
of scan_task (scan_task.c lines 511-574): for SCAN_FILTER_NONE the
scan is issued with the null filter argument; for each of the four
filter modes the descriptor's mode tag and the union member selected
by it are freshly written from the configuration constants; in the
default arm (the sentinel, unreachable in steady state) the switch
writes nothing and the stale descriptor contents left over from
earlier passes would be issued. -/
def scan_issue_arg (mode : scan_filter_mode) (p : ScanParams)
    (stale : Option cy_wcm_scan_filter_t) : Option cy_wcm_scan_filter_t :=
  match mode with
  | SCAN_FILTER_NONE => none
  | SCAN_FILTER_SSID => some (cy_wcm_scan_filter_t.ssid_of p.SCAN_FOR_SSID_VALUE)
  | SCAN_FILTER_RSSI => some (cy_wcm_scan_filter_t.rssi_of p.SCAN_FOR_RSSI_VALUE)
  | SCAN_FILTER_MAC => some (cy_wcm_scan_filter_t.mac_of p.SCAN_FOR_MAC_ADDRESS)
  | SCAN_FILTER_BAND => some (cy_wcm_scan_filter_t.band_of p.SCAN_FOR_BAND_VALUE)
  | SCAN_FILTER_INVALID => stale

/-- Actions of one loop iteration once the filter mode has been
selected (scan_task.c lines 565-587): the issuance call
cy_wcm_start_scan with its filter argument, the completion wait
xTaskNotifyWait, and the inter-pass delay vTaskDelay. -/
inductive PassAction where
  | start_scan (arg : Option cy_wcm_scan_filter_t)
  | notify_wait
  | delay
  deriving DecidableEq

/-- Success code of the cy_rslt_t result type: CY_RSLT_SUCCESS is 0. -/
def CY_RSLT_SUCCESS : Nat := 0

/-- Embedding of the tail of one loop iteration, parameterised by the
cy_rslt_t value that cy_wcm_start_scan returns for this pass: issue
the scan (null argument exactly when the mode is SCAN_FILTER_NONE,
scan_task.c lines 567-574), wait on the task notification only when
issuance returned CY_RSLT_SUCCESS (lines 581-585), then delay
(line 587). -/
def pass_body (mode : scan_filter_mode) (p : ScanParams)
    (stale : Option cy_wcm_scan_filter_t) (r : Nat) : List PassAction :=
  PassAction.start_scan (scan_issue_arg mode p stale) ::
    ((if r = CY_RSLT_SUCCESS then [PassAction.notify_wait] else []) ++
      [PassAction.delay])

/-- Security-scheme values (cy_wcm_security_t) matched by
print_scan_result, plus one constructor standing for any enum value
outside the matched set (the middleware's enumeration is versioned
and may grow over time). -/
inductive cy_wcm_security_t where
  | CY_WCM_SECURITY_OPEN
  | CY_WCM_SECURITY_WEP_PSK
  | CY_WCM_SECURITY_WEP_SHARED
  | CY_WCM_SECURITY_WPA_TKIP_PSK
  | CY_WCM_SECURITY_WPA_AES_PSK
  | CY_WCM_SECURITY_WPA_MIXED_PSK
  | CY_WCM_SECURITY_WPA2_AES_PSK
  | CY_WCM_SECURITY_WPA2_TKIP_PSK
  | CY_WCM_SECURITY_WPA2_MIXED_PSK
  | CY_WCM_SECURITY_WPA2_FBT_PSK
  | CY_WCM_SECURITY_WPA3_SAE
  | CY_WCM_SECURITY_WPA3_WPA2_PSK
  | CY_WCM_SECURITY_IBSS_OPEN
  | CY_WCM_SECURITY_WPS_SECURE
  | CY_WCM_SECURITY_UNKNOWN
  | CY_WCM_SECURITY_WPA2_WPA_AES_PSK
  | CY_WCM_SECURITY_WPA2_WPA_MIXED_PSK
  | CY_WCM_SECURITY_WPA_TKIP_ENT
  | CY_WCM_SECURITY_WPA_AES_ENT
  | CY_WCM_SECURITY_WPA_MIXED_ENT
  | CY_WCM_SECURITY_WPA2_TKIP_ENT
  | CY_WCM_SECURITY_WPA2_AES_ENT
  | CY_WCM_SECURITY_WPA2_MIXED_ENT
  | CY_WCM_SECURITY_WPA2_FBT_ENT
  | outside_matched_set (val : Nat)
  deriving DecidableEq

/-- Modelled from the spec: scan_task.h (not under src/) defines the
security display strings assigned by print_scan_result; the spec
requires an explicit Unknown placeholder for unrecognized schemes. -/
def SECURITY_UNKNOWN : String := "Unknown"

/-- Embedding of the security-string selection switch of
print_scan_result (scan_task.c lines 326-403): a total function,
with the CY_WCM_SECURITY_UNKNOWN arm and the default arm both
selecting the Unknown placeholder. The display texts of the known
arms are modelled from the spec (scan_task.h is not under src/);
only their selection structure is load-bearing. -/
def security_type_string_of : cy_wcm_security_t → String
  | cy_wcm_security_t.CY_WCM_SECURITY_OPEN => "OPEN"
  | cy_wcm_security_t.CY_WCM_SECURITY_WEP_PSK => "WEP-PSK"
  | cy_wcm_security_t.CY_WCM_SECURITY_WEP_SHARED => "WEP-SHARED"
  | cy_wcm_security_t.CY_WCM_SECURITY_WPA_TKIP_PSK => "WEP-TKIP-PSK"
  | cy_wcm_security_t.CY_WCM_SECURITY_WPA_AES_PSK => "WPA-AES-PSK"
  | cy_wcm_security_t.CY_WCM_SECURITY_WPA_MIXED_PSK => "WPA-MIXED-PSK"
  | cy_wcm_security_t.CY_WCM_SECURITY_WPA2_AES_PSK => "WPA2-AES-PSK"
  | cy_wcm_security_t.CY_WCM_SECURITY_WPA2_TKIP_PSK => "WPA2-TKIP-PSK"
  | cy_wcm_security_t.CY_WCM_SECURITY_WPA2_MIXED_PSK => "WPA2-MIXED-PSK"
  | cy_wcm_security_t.CY_WCM_SECURITY_WPA2_FBT_PSK => "WPA2-FBT-PSK"
  | cy_wcm_security_t.CY_WCM_SECURITY_WPA3_SAE => "WPA3-SAE"
  | cy_wcm_security_t.CY_WCM_SECURITY_WPA3_WPA2_PSK => "WPA3-WPA2-PSK"
  | cy_wcm_security_t.CY_WCM_SECURITY_IBSS_OPEN => "IBSS-OPEN"
  | cy_wcm_security_t.CY_WCM_SECURITY_WPS_SECURE => "WPS-SECURE"
  | cy_wcm_security_t.CY_WCM_SECURITY_UNKNOWN => SECURITY_UNKNOWN
  | cy_wcm_security_t.CY_WCM_SECURITY_WPA2_WPA_AES_PSK => "WPA2-WPA-AES-PSK"
  | cy_wcm_security_t.CY_WCM_SECURITY_WPA2_WPA_MIXED_PSK => "WPA2-WPA-MIXED-PSK"
  | cy_wcm_security_t.CY_WCM_SECURITY_WPA_TKIP_ENT => "WPA-TKIP-ENT"
  | cy_wcm_security_t.CY_WCM_SECURITY_WPA_AES_ENT => "WPA-AES-ENT"
  | cy_wcm_security_t.CY_WCM_SECURITY_WPA_MIXED_ENT => "WPA-MIXED-ENT"
  | cy_wcm_security_t.CY_WCM_SECURITY_WPA2_TKIP_ENT => "WPA2-TKIP-ENT"
  | cy_wcm_security_t.CY_WCM_SECURITY_WPA2_AES_ENT => "WPA2-AES-ENT"
  | cy_wcm_security_t.CY_WCM_SECURITY_WPA2_MIXED_ENT => "WPA2-MIXED-ENT"
  | cy_wcm_security_t.CY_WCM_SECURITY_WPA2_FBT_ENT => "WPA2-FBT-ENT"
  | cy_wcm_security_t.outside_matched_set _ => SECURITY_UNKNOWN

/-- Fields of cy_wcm_scan_result_t used by the application. The SSID
member of the middleware struct is a 33-byte NUL-terminated buffer
(at most 32 name bytes). -/
structure cy_wcm_scan_result_t where
  SSID : String
  signal_strength : Int
  channel : Nat
  BSSID : List Nat
  security : cy_wcm_security_t
  deriving DecidableEq

/-- One line forwarded to the reporting sink by print_scan_result
(scan_task.c lines 405-410): the current value of num_scan_result,
the record's fields, and the selected security string. -/
structure PrintedLine where
  seq : Nat
  SSID : String
  signal_strength : Int
  channel : Nat
  BSSID : List Nat
  security_type_string : String
  deriving DecidableEq

/-- Embedding of print_scan_result (scan_task.c lines 319-411). -/
def print_scan_result (num : Nat) (result : cy_wcm_scan_result_t) :
    PrintedLine :=
  ⟨num, result.SSID, result.signal_strength, result.channel, result.BSSID,
    security_type_string_of result.security⟩

/-- State touched by the scan callback: the global counter
num_scan_result (scan_task.c line 75), the lines already forwarded
to the reporting sink, and whether the completion notification has
been sent to scan_task. -/
structure CbState where
  num_scan_result : Nat
  sink : List PrintedLine
  notified : Bool
  deriving DecidableEq

/-- Initial callback state: num_scan_result is a zero-initialised
global, the sink is empty, no notification sent. -/
def initCbState : CbState := ⟨0, [], false⟩

/-- Scan status values delivered to the callback
(cy_wcm_scan_status_t): more records may follow, or the pass is
complete. -/
inductive cy_wcm_scan_status_t where
  | CY_WCM_SCAN_INCOMPLETE
  | CY_WCM_SCAN_COMPLETE
  deriving DecidableEq

/-- Embedding of scan_callback (scan_task.c lines 428-454). The
local ssid_len is a uint8_t holding strlen of the record's SSID when
the record pointer is non-NULL and 0 otherwise, hence the length
modulo 256; a NULL pointer therefore always fails the first guard.
A record with non-zero ssid_len arriving with status
CY_WCM_SCAN_INCOMPLETE increments num_scan_result and forwards a
line through print_scan_result (which reads the already-incremented
counter); status CY_WCM_SCAN_COMPLETE then resets num_scan_result
to 0 and notifies scan_task. -/
def scan_callback (s : CbState) (result_ptr : Option cy_wcm_scan_result_t)
    (status : cy_wcm_scan_status_t) : CbState :=
  let s1 : CbState :=
    match result_ptr with
    | some r =>
        if r.SSID.length % 256 ≠ 0 ∧
            status = cy_wcm_scan_status_t.CY_WCM_SCAN_INCOMPLETE then
          { s with num_scan_result := s.num_scan_result + 1,
                   sink := s.sink ++ [print_scan_result (s.num_scan_result + 1) r] }
        else s
    | none => s
  if status = cy_wcm_scan_status_t.CY_WCM_SCAN_COMPLETE then
    { s1 with num_scan_result := 0, notified := true }
  else s1

/-- Folding scan_callback over the in-progress deliveries of one
pass (each carrying status CY_WCM_SCAN_INCOMPLETE). -/
def run_pass (s : CbState)
    (records : List (Option cy_wcm_scan_result_t)) : CbState :=
  records.foldl
    (fun st r => scan_callback st r cy_wcm_scan_status_t.CY_WCM_SCAN_INCOMPLETE)
    s

/-- The deliveries of a pass that the callback counts: non-NULL
records whose (truncated) SSID length is non-zero. -/
def counted_records : List (Option cy_wcm_scan_result_t) → List cy_wcm_scan_result_t
  | [] => []
  | some r :: rs =>
      if r.SSID.length % 256 ≠ 0 then r :: counted_records rs
      else counted_records rs
  | none :: rs => counted_records rs

/-- Printed lines numbered consecutively from a starting sequence
number. -/
def numbered_lines (n : Nat) : List cy_wcm_scan_result_t → List PrintedLine
  | [] => []
  | r :: rs => print_scan_result n r :: numbered_lines (n + 1) rs

/-- Advancing the mode reached after k consumed events reaches the
mode for k + 1 consumed events. -/
theorem advance_modeOfCount (k : Nat) :
    advance_scan_filter_mode (modeOfCount k) = modeOfCount (k + 1) := by
  unfold modeOfCount
  have h5 : (k + 1) % 5 = (k % 5 + 1) % 5 := by omega
  rw [h5]
  have h : k % 5 < 5 := Nat.mod_lt _ (by norm_num)
  revert h
  generalize k % 5 = r
  intro h
  interval_cases r <;> decide

/-- The mode reached after any number of consumed events is live. -/
theorem modeOfCount_isLive (k : Nat) : (modeOfCount k).isLive := by
  unfold modeOfCount
  have h : k % 5 < 5 := Nat.mod_lt _ (by norm_num)
  revert h
  generalize k % 5 = r
  intro h
  interval_cases r <;> decide

/-- Invariant of the scan loop: starting from the mode reached after
k consumed events with any pending-flag value, the scans issued
along any event trace are exactly the modes reached after the
per-iteration cumulative consumption counts. -/
theorem loop_run_modes (es : List LoopEvent) :
    ∀ (flag : Bool) (k : Nat),
      (loop_run ⟨modeOfCount k, flag⟩ es).2 =
        (consumption_counts flag k es).map modeOfCount := by
  induction es with
  | nil => intro flag k; rfl
  | cons e es ih =>
      intro flag k
      cases e with
      | press =>
          simpa [loop_run, consumption_counts] using ih true k
      | iter =>
          cases flag with
          | false =>
              simpa [loop_run, consumption_counts] using ih false k
          | true =>
              have h := ih false (k + 1)
              simp [loop_run, consumption_counts, advance_modeOfCount] at h ⊢
              exact h

/-- Specialisation of the loop invariant to the initial state. -/
theorem loop_run_init_modes (es : List LoopEvent) :
    (loop_run initLoopState es).2 =
      (consumption_counts false 0 es).map modeOfCount := by
  have hinit : initLoopState = ⟨modeOfCount 0, false⟩ := rfl
  rw [hinit]
  exact loop_run_modes es false 0

/-- With the pending flag already set, further presses leave the
state unchanged and the next iteration advances the mode once. -/
theorem loop_run_press_locked (i : Nat) (m : scan_filter_mode) :
    loop_run ⟨m, true⟩
        (List.replicate i LoopEvent.press ++ [LoopEvent.iter]) =
      (⟨advance_scan_filter_mode m, false⟩, [advance_scan_filter_mode m]) := by
  induction i with
  | zero => simp [loop_run]
  | succ n ih => simpa [List.replicate_succ, loop_run] using ih

/-- Effect of one whole pass of in-progress deliveries on the
callback state, from an arbitrary starting state. -/
theorem run_pass_spec (records : List (Option cy_wcm_scan_result_t)) :
    ∀ s : CbState,
      run_pass s records =
        ⟨s.num_scan_result + (counted_records records).length,
         s.sink ++
           numbered_lines (s.num_scan_result + 1) (counted_records records),
         s.notified⟩ := by
  induction records with
  | nil => intro s; simp [run_pass, counted_records, numbered_lines]
  | cons r rs ih =>
      intro s
      have hfold : run_pass s (r :: rs) =
          run_pass (scan_callback s r
            cy_wcm_scan_status_t.CY_WCM_SCAN_INCOMPLETE) rs := rfl
      cases r with
      | none =>
          rw [hfold]
          have hcb : scan_callback s none
              cy_wcm_scan_status_t.CY_WCM_SCAN_INCOMPLETE = s := rfl
          rw [hcb]
          simpa [counted_records] using ih s
      | some rec =>
          rw [hfold]
          by_cases h : rec.SSID.length % 256 = 0
          · have hcb : scan_callback s (some rec)
                cy_wcm_scan_status_t.CY_WCM_SCAN_INCOMPLETE = s := by
              simp [scan_callback, h]
            rw [hcb]
            have hc : counted_records (some rec :: rs) = counted_records rs := by
              simp [counted_records, h]
            rw [hc]
            exact ih s
          · have hcb : scan_callback s (some rec)
                cy_wcm_scan_status_t.CY_WCM_SCAN_INCOMPLETE =
                ⟨s.num_scan_result + 1,
                 s.sink ++ [print_scan_result (s.num_scan_result + 1) rec],
                 s.notified⟩ := by
              simp [scan_callback, h]
            rw [hcb]
            have hc : counted_records (some rec :: rs) =
                rec :: counted_records rs := by
              simp [counted_records, h]
            rw [hc]
            rw [ih ⟨s.num_scan_result + 1,
              s.sink ++ [print_scan_result (s.num_scan_result + 1) rec],
              s.notified⟩]
            simp [numbered_lines, List.append_assoc]
            omega

/-- Processing a pass-complete delivery, whatever record pointer
accompanies it, resets the counter, changes no sink content, and
sends the completion notification. -/
theorem scan_callback_complete (s : CbState)
    (fp : Option cy_wcm_scan_result_t) :
    scan_callback s fp cy_wcm_scan_status_t.CY_WCM_SCAN_COMPLETE =
      ⟨0, s.sink, true⟩ := by
  cases fp <;> simp [scan_callback]

/-- C1: if cy_wcm_start_scan returns a non-success result for a
pass, scan_task never performs the Completion-Gate wait
(xTaskNotifyWait) for that pass and proceeds directly from the
issuance call to the inter-pass delay, so it cannot hang; and for
every result value, the wait is performed exactly when issuance
returned CY_RSLT_SUCCESS. -/
theorem failed_issuance_skips_wait (mode : scan_filter_mode)
    (p : ScanParams) (stale : Option cy_wcm_scan_filter_t) (r : Nat)
    (h : r ≠ CY_RSLT_SUCCESS) :
    PassAction.notify_wait ∉ pass_body mode p stale r ∧
    pass_body mode p stale r =
      [PassAction.start_scan (scan_issue_arg mode p stale),
       PassAction.delay] ∧
    (∀ r2 : Nat, PassAction.notify_wait ∈ pass_body mode p stale r2 ↔
      r2 = CY_RSLT_SUCCESS) := by
  refine ⟨?_, ?_, ?_⟩
  · simp [pass_body, h]
  · simp [pass_body, h]
  · intro r2
    by_cases h2 : r2 = CY_RSLT_SUCCESS <;> simp [pass_body, h2]

/-- C1 witness: instantiation at a concrete failing result value. -/
theorem failed_issuance_skips_wait_witness :
    PassAction.notify_wait ∉
      pass_body SCAN_FILTER_NONE
        ⟨"NET", [1, 2, 3, 4, 5, 6],
          cy_wcm_wifi_band_t.CY_WCM_WIFI_BAND_ANY, -60⟩ none 1 ∧
    pass_body SCAN_FILTER_NONE
        ⟨"NET", [1, 2, 3, 4, 5, 6],
          cy_wcm_wifi_band_t.CY_WCM_WIFI_BAND_ANY, -60⟩ none 1 =
      [PassAction.start_scan
        (scan_issue_arg SCAN_FILTER_NONE
          ⟨"NET", [1, 2, 3, 4, 5, 6],
            cy_wcm_wifi_band_t.CY_WCM_WIFI_BAND_ANY, -60⟩ none),
       PassAction.delay] ∧
    (∀ r2 : Nat, PassAction.notify_wait ∈
        pass_body SCAN_FILTER_NONE
          ⟨"NET", [1, 2, 3, 4, 5, 6],
            cy_wcm_wifi_band_t.CY_WCM_WIFI_BAND_ANY, -60⟩ none r2 ↔
      r2 = CY_RSLT_SUCCESS) :=
  failed_issuance_skips_wait SCAN_FILTER_NONE
    ⟨"NET", [1, 2, 3, 4, 5, 6],
      cy_wcm_wifi_band_t.CY_WCM_WIFI_BAND_ANY, -60⟩ none 1 (by decide)

/-- C2: starting from FilterMode None with no pending press, for
every sequence of button events interleaved with loop iterations the
mode under which each pass's scan is issued equals the number of
button-event consumptions (read-and-clear of the pending flag at the
top of a loop iteration) performed up to and including that
iteration's own consumption — i.e. strictly before that scan was
issued — taken modulo 5 over the enumeration order None, BySSID,
ByRSSIThreshold, ByMACAddress, ByFrequencyBand; in particular a
press consumed at the top of an iteration shifts that same
iteration's scan, not a future one. -/
theorem scan_mode_counts_consumed_presses (es : List LoopEvent) :
    (loop_run initLoopState es).2 =
      (consumption_counts false 0 es).map modeOfCount :=
  loop_run_init_modes es

/-- C3: num_scan_result is 0 at the start of a pass; after the
callback has processed the pass's in-progress deliveries it equals
the number of counted records k, the reporting sink has received
exactly those records numbered 1..k in order, and the completion
delivery resets the counter to 0 (before any next pass begins) while
signalling scan_task. -/
theorem num_scan_result_pass_invariant
    (records : List (Option cy_wcm_scan_result_t))
    (final_ptr : Option cy_wcm_scan_result_t) :
    initCbState.num_scan_result = 0 ∧
    (run_pass initCbState records).num_scan_result =
      (counted_records records).length ∧
    (run_pass initCbState records).sink =
      numbered_lines 1 (counted_records records) ∧
    scan_callback (run_pass initCbState records) final_ptr
        cy_wcm_scan_status_t.CY_WCM_SCAN_COMPLETE =
      ⟨0, numbered_lines 1 (counted_records records), true⟩ := by
  have h := run_pass_spec records initCbState
  refine ⟨rfl, ?_, ?_, ?_⟩
  · rw [h]
    simp [initCbState]
  · rw [h]
    rfl
  · rw [h, scan_callback_complete]
    simp [initCbState]

/-- C4: a record delivered during an in-progress pass with an empty
SSID is not counted and not forwarded; a record with a non-empty
SSID (which in the middleware struct holds at most 32 bytes) is
counted and forwarded with the incremented sequence number. -/
theorem empty_ssid_records_dropped (s : CbState)
    (r : cy_wcm_scan_result_t) :
    (r.SSID = "" →
      scan_callback s (some r)
        cy_wcm_scan_status_t.CY_WCM_SCAN_INCOMPLETE = s) ∧
    (r.SSID.length ≠ 0 → r.SSID.length ≤ 32 →
      scan_callback s (some r)
          cy_wcm_scan_status_t.CY_WCM_SCAN_INCOMPLETE =
        ⟨s.num_scan_result + 1,
         s.sink ++ [print_scan_result (s.num_scan_result + 1) r],
         s.notified⟩) := by
  constructor
  · intro h
    simp [scan_callback, h]
  · intro h1 h2
    have hg : r.SSID.length % 256 ≠ 0 := by omega
    simp [scan_callback, hg]

/-- C4 witness: an empty-SSID record is dropped and a non-empty one
is counted and forwarded. -/
theorem empty_ssid_records_dropped_witness :
    scan_callback initCbState
        (some ⟨"", -40, 1, [0, 0, 0, 0, 0, 0],
          cy_wcm_security_t.CY_WCM_SECURITY_OPEN⟩)
        cy_wcm_scan_status_t.CY_WCM_SCAN_INCOMPLETE = initCbState ∧
    scan_callback initCbState
        (some ⟨"AP", -40, 1, [0, 0, 0, 0, 0, 0],
          cy_wcm_security_t.CY_WCM_SECURITY_OPEN⟩)
        cy_wcm_scan_status_t.CY_WCM_SCAN_INCOMPLETE =
      ⟨1, [print_scan_result 1 ⟨"AP", -40, 1, [0, 0, 0, 0, 0, 0],
        cy_wcm_security_t.CY_WCM_SECURITY_OPEN⟩], false⟩ := by
  constructor
  · exact (empty_ssid_records_dropped initCbState
      ⟨"", -40, 1, [0, 0, 0, 0, 0, 0],
        cy_wcm_security_t.CY_WCM_SECURITY_OPEN⟩).1 rfl
  · have h := (empty_ssid_records_dropped initCbState
      ⟨"AP", -40, 1, [0, 0, 0, 0, 0, 0],
        cy_wcm_security_t.CY_WCM_SECURITY_OPEN⟩).2
      (by decide) (by decide)
    simpa [initCbState] using h

/-- C5: the filter-advance operation applied 5 times from any of the
five live modes returns that same mode, and a single application to
a live mode again yields a live mode, so SCAN_FILTER_INVALID is
never the steady-state value. -/
theorem advance_filter_cycle_of_five (m : scan_filter_mode)
    (h : m.isLive) :
    advance_scan_filter_mode^[5] m = m ∧
    (advance_scan_filter_mode m).isLive := by
  cases m <;> first
    | exact absurd rfl h
    | exact ⟨by decide, by decide⟩

/-- C5 witness: instantiation at SCAN_FILTER_MAC. -/
theorem advance_filter_cycle_of_five_witness :
    advance_scan_filter_mode^[5] SCAN_FILTER_MAC = SCAN_FILTER_MAC ∧
    (advance_scan_filter_mode SCAN_FILTER_MAC).isLive :=
  advance_filter_cycle_of_five SCAN_FILTER_MAC (by decide)

/-- C6: any number j ≥ 1 of button presses arriving between two
consecutive consumptions coalesces into exactly one filter-mode
advance at the next consumption: from a state with the flag clear,
j presses followed by one loop iteration leave the mode advanced
exactly once, the flag clear, and the iteration's scan issued under
that single-advanced mode — never a double advance, never a
corrupted value. -/
theorem presses_coalesce_to_one_advance (j : Nat)
    (m : scan_filter_mode) (h : 1 ≤ j) :
    loop_run ⟨m, false⟩
        (List.replicate j LoopEvent.press ++ [LoopEvent.iter]) =
      (⟨advance_scan_filter_mode m, false⟩,
        [advance_scan_filter_mode m]) := by
  obtain ⟨i, rfl⟩ : ∃ i, j = i + 1 := ⟨j - 1, by omega⟩
  have h0 := loop_run_press_locked i m
  simpa [List.replicate_succ, loop_run] using h0

/-- C6 witness: two presses before the next consumption advance the
mode exactly once. -/
theorem presses_coalesce_to_one_advance_witness :
    loop_run ⟨SCAN_FILTER_NONE, false⟩
        (List.replicate 2 LoopEvent.press ++ [LoopEvent.iter]) =
      (⟨advance_scan_filter_mode SCAN_FILTER_NONE, false⟩,
        [advance_scan_filter_mode SCAN_FILTER_NONE]) :=
  presses_coalesce_to_one_advance 2 SCAN_FILTER_NONE (by decide)

/-- C7: the filter argument issued at a pass is a function of the
pass's filter mode and the configuration constants alone: along any
execution of the loop from the initial state, every issued mode
yields the same argument whatever stale descriptor contents earlier
passes left behind, and mode None issues the null (no-filter)
argument. -/
theorem filter_arg_stale_independent (es : List LoopEvent)
    (p : ScanParams) (st1 st2 : Option cy_wcm_scan_filter_t) :
    (∀ m ∈ (loop_run initLoopState es).2,
        scan_issue_arg m p st1 = scan_issue_arg m p st2) ∧
    scan_issue_arg SCAN_FILTER_NONE p st1 = none := by
  refine ⟨?_, rfl⟩
  intro m hm
  rw [loop_run_init_modes] at hm
  obtain ⟨k, hk, rfl⟩ := List.mem_map.mp hm
  have hl := modeOfCount_isLive k
  revert hl
  generalize modeOfCount k = m0
  intro hl
  cases m0 <;> first
    | rfl
    | exact absurd rfl hl

/-- C7 witness: instantiation at a concrete trace, parameter set and
two different stale descriptors. -/
theorem filter_arg_stale_independent_witness :
    (∀ m ∈ (loop_run initLoopState [LoopEvent.press, LoopEvent.iter]).2,
        scan_issue_arg m
          ⟨"NET", [1, 2, 3, 4, 5, 6],
            cy_wcm_wifi_band_t.CY_WCM_WIFI_BAND_5GHZ, -60⟩ none =
        scan_issue_arg m
          ⟨"NET", [1, 2, 3, 4, 5, 6],
            cy_wcm_wifi_band_t.CY_WCM_WIFI_BAND_5GHZ, -60⟩
          (some (cy_wcm_scan_filter_t.mac_of [9, 9, 9, 9, 9, 9]))) ∧
    scan_issue_arg SCAN_FILTER_NONE
        ⟨"NET", [1, 2, 3, 4, 5, 6],
          cy_wcm_wifi_band_t.CY_WCM_WIFI_BAND_5GHZ, -60⟩ none = none :=
  filter_arg_stale_independent [LoopEvent.press, LoopEvent.iter]
    ⟨"NET", [1, 2, 3, 4, 5, 6],
      cy_wcm_wifi_band_t.CY_WCM_WIFI_BAND_5GHZ, -60⟩
    none (some (cy_wcm_scan_filter_t.mac_of [9, 9, 9, 9, 9, 9]))

/-- C8: the display-name lookups on the reporting path are total
with an explicit Unknown fallback: every security-scheme value —
including any value outside the matched set and the provider's own
Unknown member — selects a non-empty string, values outside the
matched set select exactly the Unknown placeholder, and every
frequency-band value yields a non-empty band name. -/
theorem display_lookups_total (sec : cy_wcm_security_t)
    (b : cy_wcm_wifi_band_t) (n : Nat) :
    0 < (security_type_string_of sec).length ∧
    security_type_string_of
        (cy_wcm_security_t.outside_matched_set n) = SECURITY_UNKNOWN ∧
    security_type_string_of
        cy_wcm_security_t.CY_WCM_SECURITY_UNKNOWN = SECURITY_UNKNOWN ∧
    0 < (band_string b).length := by
  refine ⟨?_, rfl, rfl, ?_⟩
  · cases sec <;>
      simp only [security_type_string_of, SECURITY_UNKNOWN] <;> decide
  · cases b <;> decide

/-- C9: a NULL record pointer is safe for every status: nothing is
counted (the counter never grows) and nothing is forwarded to the
sink; with the in-progress status the state is untouched, and with
the pass-complete status the counter is still reset to 0 and the
completion notification is still sent. -/
theorem null_record_pointer_safe (s : CbState)
    (status : cy_wcm_scan_status_t) :
    (scan_callback s none status).num_scan_result ≤ s.num_scan_result ∧
    (scan_callback s none status).sink = s.sink ∧
    scan_callback s none cy_wcm_scan_status_t.CY_WCM_SCAN_INCOMPLETE = s ∧
    scan_callback s none cy_wcm_scan_status_t.CY_WCM_SCAN_COMPLETE =
      ⟨0, s.sink, true⟩ := by
  refine ⟨?_, ?_, rfl, scan_callback_complete s none⟩
  · cases status <;> simp [scan_callback]
  · cases status <;> simp [scan_callback]

/-- C10: a record delivered together with the pass-complete status
is never counted and never forwarded, whatever its SSID: the
callback only resets the counter, leaves the sink unchanged and
sends the completion notification. -/
theorem complete_status_record_not_counted (s : CbState)
    (r : cy_wcm_scan_result_t) :
    scan_callback s (some r) cy_wcm_scan_status_t.CY_WCM_SCAN_COMPLETE =
      ⟨0, s.sink, true⟩ :=
  scan_callback_complete s (some r)
